import Mathlib

/-!
Shallow embedding of the hdiff-apply update engine.

The repository contains two generations of the pipeline:
* the current one under `src/update/` and `src/utils/` (`UpdateMgr`,
  `HDiff`, `LDiff`, `Verifier`, `DeleteFiles`, `HPatchZ`), and
* an older one at the crate root (`main.rs`, `hdiffmap.rs`, `verifier.rs`,
  `binary_version.rs`, `deletefiles.rs`, `utils.rs`).

Machine integers (`u32`, `u64`) are modelled as `Nat`; byte buffers as
`List Nat`; paths as `String` (or `List String` of components where the
code walks a directory tree); the filesystem, where needed, as an
association list from path to content.  External process invocations
(`hpatchz.exe`) are modelled by an explicit outcome value describing what
the spawned process did.
-/

namespace HdiffApply

/-- `BinaryVersion` from `src/utils/binary_version.rs` (and the identical
struct in `src/binary_version.rs`): an ordered (major, minor, patch)
triple.  `u32` fields are modelled as `Nat`. -/
structure BinaryVersion where
  major_version : Nat
  minor_version : Nat
  patch_version : Nat
deriving DecidableEq, Repr

/-- Shorthand constructor for version literals. -/
def v (a b c : Nat) : BinaryVersion := ⟨a, b, c⟩

/-- `utils::verify_version` from `src/utils/mod.rs` lines 100-104 (the copy
in `src/utils.rs` lines 90-94 is textually identical):
same major, same minor, and the next patch is exactly the current patch
plus one. -/
def verify_version (first_version next_version : BinaryVersion) : Bool :=
  first_version.major_version == next_version.major_version
    && first_version.minor_version == next_version.minor_version
    && next_version.patch_version == first_version.patch_version + 1

/-- The loop of `UpdateMgr::fix_update_sequence` (`src/update/manager.rs`
lines 296-311): walk the update list in the order it is stored (discovery
order — `prepare_archives` never sorts), tracking the current accepted
version, the index of the first accepted candidate and the number of
accepted candidates; once a candidate has been accepted, the first
non-matching candidate breaks the loop. -/
def fixLoop : List BinaryVersion → BinaryVersion → Option Nat → Nat → Nat →
    Option Nat × Nat
  | [], _, start, count, _ => (start, count)
  | w :: rest, cur, start, count, i =>
    if verify_version cur w then
      fixLoop rest w (some (start.getD i)) (count + 1) (i + 1)
    else
      match start with
      | some _ => (start, count)
      | none => fixLoop rest cur none count (i + 1)

/-- `UpdateMgr::fix_update_sequence` (`src/update/manager.rs` lines
296-332).  Only the versions of the `UpdateInfo` records matter to the
sequencing decision, so the update list is modelled as a list of
`BinaryVersion`.  `valid_count == 0` is an error; otherwise
`drain(0..start)` followed by `truncate(count)` keeps exactly the slice
`drop start` then `take count`. -/
def fix_update_sequence (client : BinaryVersion) (updates : List BinaryVersion) :
    Except String (List BinaryVersion) :=
  match fixLoop updates client none 0 0 with
  | (_, 0) => Except.error "Incompatible hdiff version"
  | (start, count) => Except.ok ((updates.drop (start.getD 0)).take count)

/-- The derived `Ord` on the Rust `BinaryVersion` (field order:
major, minor, patch): lexicographic comparison, here as a boolean
less-or-equal used by the sort model. -/
def bvLe (a b : BinaryVersion) : Bool :=
  if a.major_version ≠ b.major_version then a.major_version < b.major_version
  else if a.minor_version ≠ b.minor_version then a.minor_version < b.minor_version
  else a.patch_version ≤ b.patch_version

/-- Stable insertion used to model `updates_big_vec.sort_by(|a, b| a.0.cmp(&b.0))`
in `src/main.rs` line 80 (Rust's `sort_by` is stable). -/
def bvInsert (x : BinaryVersion) : List BinaryVersion → List BinaryVersion
  | [] => [x]
  | w :: ws => if bvLe w x then w :: bvInsert x ws else x :: w :: ws

/-- Sort model for `src/main.rs` line 80. -/
def bvSort : List BinaryVersion → List BinaryVersion
  | [] => []
  | x :: xs => bvInsert x (bvSort xs)

/-- The sequencing logic of the older pipeline, `run` in `src/main.rs`
lines 80-122: sort the candidates, set `start_index` at the first
candidate that is a direct successor of the *client* version, and fail if
any later candidate is also a direct successor of the client version; the
applied chain is everything from `start_index` to the end of the sorted
list (`updates_big_vec.iter().skip(index)`), with no per-step
verification. -/
def mainRunChain (client : BinaryVersion) (candidates : List BinaryVersion) :
    Except String (List BinaryVersion) :=
  let sorted := bvSort candidates
  match sorted.findIdx? (fun w => verify_version client w) with
  | none => Except.error "InvalidHdiffVersion"
  | some i =>
    if (sorted.drop (i + 1)).any (fun w => verify_version client w) then
      Except.error "InvalidHdiffVersion"
    else
      Except.ok (sorted.drop i)

/-- What the spawned external patcher process did, as observed by
`HPatchZ::patch_file` (`src/utils/hpatchz.rs`): either the process could
not be launched (`Command::output()` returned `Err`), or it ran and
produced an exit status and some stderr bytes. -/
inductive ExecOutcome where
  | launchFailure
  | ran (statusSuccess : Bool) (stderr : List Nat)
deriving DecidableEq, Repr

/-- Result of one `HPatchZ::patch_file` call: the boolean the function
returns, plus the list of paths it passed to `fs::remove_file` (the code
ignores the results of those calls, so this records the removals it
attempts). -/
structure PatchResult where
  success : Bool
  removed : List String
deriving DecidableEq, Repr

/-- `Path::join` on already-relative components, modelled on strings. -/
def pathJoin (base p : String) : String := base ++ "/" ++ p

/-- `HPatchZ::patch_file` (`src/utils/hpatchz.rs` lines 47-80):
* launch failure → error (`anyhow::bail!`);
* exit status success → remove the patch blob, and the source file too
  when it differs from the target, return `true`;
* exit status failure with non-empty stderr → return `false`, remove
  nothing;
* exit status failure with empty stderr → fall through to the trailing
  `Ok(true)`: return `true`, remove nothing. -/
def patch_file (outcome : ExecOutcome) (source_file pfile target_file : String) :
    Except String PatchResult :=
  match outcome with
  | .launchFailure =>
    Except.error ("Failed to execute patch command for: " ++ source_file)
  | .ran statusSuccess stderr =>
    if statusSuccess then
      Except.ok
        { success := true
          removed :=
            if source_file ≠ target_file then [pfile, source_file] else [pfile] }
    else if stderr ≠ [] then
      Except.ok { success := false, removed := [] }
    else
      Except.ok { success := true, removed := [] }

/-- `DiffEntry` from `src/types.rs`. -/
structure DiffEntry where
  source_file_name : String
  source_file_md5 : String
  source_file_size : Nat
  target_file_name : String
  target_file_md5 : String
  target_file_size : Nat
  patch_file_name : String
  patch_file_md5 : String
  patch_file_size : Nat
deriving DecidableEq, Repr

/-- The source path `HDiff::patch` hands to `HPatchZ::patch_file`
(`src/update/hdiff.rs` lines 81-87): `game_path.join(source_file_name)`,
replaced by the empty path when `source_file_name` is empty. -/
def entrySource (game : String) (e : DiffEntry) : String :=
  if e.source_file_name = "" then "" else pathJoin game e.source_file_name

/-- One iteration of the `HDiff::patch` closure (`src/update/hdiff.rs`
lines 78-98): resolve the three paths, call `HPatchZ::patch_file`, and on
a `false` result log which file failed.  Produces the log lines printed
and the removals attempted for this entry. -/
def hdiffPatchStep (game : String) (e : DiffEntry) (o : ExecOutcome) :
    Except String (List String × List String) :=
  match patch_file o (entrySource game e) (pathJoin game e.patch_file_name)
      (pathJoin game e.target_file_name) with
  | .error msg => Except.error msg
  | .ok r =>
    Except.ok
      (if r.success then [] else ["Failed to patch: " ++ entrySource game e], r.removed)

/-- `HDiff::patch` over a batch (`src/update/hdiff.rs` lines 75-103):
`try_for_each` over the diff entries, each paired with the behaviour of
its external patcher invocation.  An `Err` from any step (patcher launch
failure) aborts the batch; a `false` patch result does not. -/
def hdiffPatch (game : String) :
    List (DiffEntry × ExecOutcome) → Except String (List String × List String)
  | [] => Except.ok ([], [])
  | (e, o) :: rest =>
    match hdiffPatchStep game e o with
    | .error msg => Except.error msg
    | .ok (log1, rem1) =>
      match hdiffPatch game rest with
      | .error msg => Except.error msg
      | .ok (log2, rem2) => Except.ok (log1 ++ log2, rem1 ++ rem2)

/-- Filesystem model for the verifier: an association list from path to
file content (bytes as `Nat`).  A path absent from the list is a file
that cannot be opened. -/
def Fs : Type := List (String × List Nat)

/-- Look a path up in the filesystem model. -/
def fsLookup (fs : Fs) (path : String) : Option (List Nat) :=
  (List.find? (fun q => q.1 == path) fs).map Prod.snd

/-- `VerifyError` from `src/error.rs` / `src/verifier.rs`: the size- and
hash-mismatch errors carry expected value, actual value and file name;
`ioOpen` stands for the wrapped `IOError` of a failed `File::open`. -/
inductive VerifyError where
  | ioOpen (path : String)
  | fileSizeMismatch (expected got : Nat) (file_name : String)
  | md5Mismatch (expected got : String) (file_name : String)
deriving DecidableEq, Repr

/-- The deserialized diff-map record the verifier works on
(`src/update/verifier.rs` lines 19-24): pre-image name, size and MD5. -/
structure VerifierEntry where
  source_file_name : String
  source_file_size : Nat
  source_file_md5 : String
deriving DecidableEq, Repr

/-- `Verifier::verify_file` (`src/update/verifier.rs` lines 52-96; the
copy in `src/verifier.rs` lines 65-109 is the same logic): open the
pre-image — unconditionally, there is no branch on the entry's source
hash or name — compare the byte length to `source_file_size`, and only
then stream-hash the content and compare to `source_file_md5`.  The MD5
function is a parameter of the embedding: the theorems quantify over it,
which also expresses which results are independent of the hash. -/
def verify_file (md5 : List Nat → String) (game : String) (fs : Fs)
    (entry : VerifierEntry) : Except VerifyError Unit :=
  let path := pathJoin game entry.source_file_name
  match fsLookup fs path with
  | none => Except.error (VerifyError.ioOpen path)
  | some content =>
    if content.length ≠ entry.source_file_size then
      Except.error
        (VerifyError.fileSizeMismatch entry.source_file_size content.length path)
    else
      let got := md5 content
      if got ≠ entry.source_file_md5 then
        Except.error (VerifyError.md5Mismatch entry.source_file_md5 got path)
      else
        Except.ok ()

/-- `Verifier::verify_all` (`src/update/verifier.rs` lines 98-110):
`try_for_each` over every record of the diff map — no record is filtered
out — stopping at the first failure. -/
def verify_all (md5 : List Nat → String) (game : String) (fs : Fs) :
    List VerifierEntry → Except VerifyError Unit
  | [] => Except.ok ()
  | e :: rest =>
    match verify_file md5 game fs e with
    | .error err => Except.error err
    | .ok _ => verify_all md5 game fs rest

/-- `seek(SeekFrom::Start(offset))` followed by `read_exact` of a
`size`-byte buffer on a file holding `chunk` (`src/update/ldiff.rs` lines
116-120).  Seeking past the end is allowed; `read_exact` succeeds iff the
bytes remaining after the seek cover the whole buffer (`Nat` subtraction
makes `chunk.length - offset` zero when the seek is past the end, and a
zero-length read trivially succeeds). -/
def read_exact (chunk : List Nat) (offset size : Nat) : Option (List Nat) :=
  if size ≤ chunk.length - offset then some ((chunk.drop offset).take size)
  else none

/-- The per-descriptor body of `LDiff::create_hdiff_files`
(`src/update/ldiff.rs` lines 112-131): materialize one patch blob from
its backing chunk file.  The blob is written only after `read_exact`
succeeded; a short read is the `failed to fill whole buffer` error and
nothing is written. -/
def create_hdiff_file (chunk : List Nat) (offset size : Nat) :
    Except String (List Nat) :=
  match read_exact chunk offset size with
  | none => Except.error "failed to fill whole buffer"
  | some bytes => Except.ok bytes

/-- `PathBuf::from(asset_name)` decomposed into components, for the
manifest asset-name set of `LDiff::handle_delete_files` (asset names use
forward slashes). -/
def splitPath (s : String) : List String := s.splitOn "/"

/-- `LDiff::walk_dir_excluding` (`src/update/ldiff.rs` lines 195-218) over
a filesystem modelled as the list of its files, each given as its
component path relative to the game root: the walk starts at the
directory `root` (pushed unconditionally) and skips every subdirectory
whose name equals `exclude`, so it returns exactly the files whose first
component is `root` and none of whose intermediate directory components
equals `exclude`. -/
def walk_dir_excluding (files : List (List String)) (root exclude : String) :
    List (List String) :=
  files.filter (fun p =>
    p.head? == some root && (p.drop 1).dropLast.all (fun c => c != exclude))

/-- `LDiff::handle_delete_files` (`src/update/ldiff.rs` lines 169-193):
collect the manifest's asset names as paths, walk
`game_path.join("StarRail_Data")` excluding directories named
`"Persistent"`, and delete every walked file whose path relative to the
game root is not in the asset set.  (In this relative-path model
`strip_prefix` is the identity and always succeeds.)  The result is the
list of files the code deletes. -/
def handle_delete_files (assets : List String) (files : List (List String)) :
    List (List String) :=
  let ldiff_asset_set := assets.map splitPath
  let all_game_files := walk_dir_excluding files "StarRail_Data" "Persistent"
  all_game_files.filter (fun p => !(ldiff_asset_set.contains p))

/-- Modelled from the spec (for comparison with `handle_delete_files`,
which is modelled from the source): "recursively listing every file under
the install root (excluding a designated persistent-user-data subtree)
and deleting any file whose path, relative to the install root, is not
present in the manifest's asset-name set" — i.e. the walk covers the
whole install root, not just one subdirectory of it. -/
def handle_delete_files_claim (assets : List String) (files : List (List String)) :
    List (List String) :=
  let asset_set := assets.map splitPath
  (files.filter (fun p => p.dropLast.all (fun c => c != "Persistent"))).filter
    (fun p => !(asset_set.contains p))

/-- The loop body of `DeleteFiles::execute` (`src/update/deletefiles.rs`
lines 39-52) over the lines of the deletion list: trim each line, skip
empty ones, join the rest onto the game path and attempt
`fs::remove_file`; a failed removal only logs.  `deleteOk` models which
removals the filesystem lets succeed.  Returns (paths removed, log lines
emitted), in list order. -/
def deletefiles_lines (game : String) (deleteOk : String → Bool) :
    List String → List String × List String
  | [] => ([], [])
  | line :: rest =>
    let t := line.trim
    if t = "" then deletefiles_lines game deleteOk rest
    else
      let p := pathJoin game t
      let (rem, log) := deletefiles_lines game deleteOk rest
      if deleteOk p then (p :: rem, log)
      else (rem, ("Failed to remove " ++ p) :: log)

/-- `DeleteFiles::execute` (`src/update/deletefiles.rs` lines 27-55) once
the deletion-list file is present and readable: process every line and
return `Ok` regardless of how many individual removals failed.  (The
older `DeleteFiles::remove` in `src/deletefiles.rs` lines 32-61 has the
same per-line log-and-continue policy, without the trim/skip-empty
step.) -/
def deletefiles_execute (game : String) (lines : List String)
    (deleteOk : String → Bool) : Except String (List String × List String) :=
  Except.ok (deletefiles_lines game deleteOk lines)

/-- Maximal leading run of ASCII digits of a character list, with the
rest.  (`\d` of the version regex; the marker-file content of interest is
ASCII.) -/
def takeDigits : List Char → List Char × List Char
  | [] => ([], [])
  | c :: rest =>
    if c.isDigit then
      let (d, r) := takeDigits rest
      (c :: d, r)
    else ([], c :: rest)

/-- Attempt to match the regex `(\d+)\.(\d+)\.(\d{1,2})` at the head of
the input, returning the three captured digit groups.  The quantifiers
are greedy; since shrinking a greedy `\d+` can only expose another digit
where a literal `.` is required, taking the maximal run at each group is
exact, and the greedy `\d{1,2}` capture is the first `min 2` digits of
the final run. -/
def matchVersionAt (s : List Char) : Option (List Char × List Char × List Char) :=
  let (d1, r1) := takeDigits s
  if d1 = [] then none
  else
    match r1 with
    | '.' :: r2 =>
      let (d2, r3) := takeDigits r2
      if d2 = [] then none
      else
        match r3 with
        | '.' :: r4 =>
          let (d3, _) := takeDigits r4
          if d3 = [] then none else some (d1, d2, d3.take 2)
        | _ => none
    | _ => none

/-- Leftmost match of `(\d+)\.(\d+)\.(\d{1,2})`: try each start position
from the left (`Regex::captures` returns the leftmost match). -/
def findVersionMatch : List Char → Option (List Char × List Char × List Char)
  | [] => none
  | c :: rest =>
    match matchVersionAt (c :: rest) with
    | some m => some m
    | none => findVersionMatch rest

/-- Numeric value of a digit string. -/
def digitsToNat (ds : List Char) : Nat :=
  ds.foldl (fun a c => a * 10 + (c.toNat - '0'.toNat)) 0

/-- `caps[i].parse::<u32>().unwrap_or(0)`: the capture is all digits, so
the parse fails only on `u32` overflow, which `unwrap_or` turns into 0. -/
def parseU32OrZero (ds : List Char) : Nat :=
  let n := digitsToNat ds
  if n < 2 ^ 32 then n else 0

/-- `BinaryVersion::parse` from `src/utils/binary_version.rs` lines 14-39
(the legacy zero-fallback decoder), applied to the marker file's content:
capture the first `(\d+)\.(\d+)\.(\d{1,2})` match; with no match, return
`BinaryVersion::default()`, never an error. -/
def binary_version_parse (content : List Char) : BinaryVersion :=
  match findVersionMatch content with
  | some (d1, d2, d3) =>
    ⟨parseU32OrZero d1, parseU32OrZero d2, parseU32OrZero d3⟩
  | none => ⟨0, 0, 0⟩

/-- Index of the last `'-'` (`content.rfind('-')`). -/
def rfindDash (content : List Char) : Option Nat :=
  match (content.reverse).findIdx? (fun c => c == '-') with
  | none => none
  | some i => some (content.length - 1 - i)

/-- `str::split('.')` on a character list (keeps empty segments, as Rust
does). -/
def splitOnDot : List Char → List (List Char)
  | [] => [[]]
  | c :: rest =>
    let r := splitOnDot rest
    if c = '.' then [] :: r
    else
      match r with
      | [] => [[c]]
      | s :: ss => (c :: s) :: ss

/-- `segment.parse::<u32>().ok()`: succeeds on a non-empty all-digit
segment whose value fits in `u32`.  (Rust also accepts a leading `'+'`;
irrelevant to the inputs considered here.) -/
def parseU32Seg (ds : List Char) : Option Nat :=
  if ds ≠ [] ∧ ds.all Char.isDigit ∧ digitsToNat ds < 2 ^ 32 then
    some (digitsToNat ds)
  else none

/-- Outcome of the strict decoder: a parsed version, the
`Error::VersionParse` error, or a panic (an `unwrap` on `None`, which
aborts instead of returning an error). -/
inductive StrictResult where
  | parsed (ver : BinaryVersion)
  | versionParseError
  | panicked
deriving DecidableEq, Repr

/-- `BinaryVersion::parse` from `src/binary_version.rs` lines 13-47 (the
strict decoder), applied to the marker file's content:
`content.rfind('-').unwrap()` panics when the content has no `'-'`;
otherwise take the slice starting 6 positions before the last dash
(`saturating_sub`), cut it at its first `'-'`, split on `'.'`, keep the
first three segments that parse as `u32`, and fail with
`Error::VersionParse` unless exactly three parsed.  (Positions are char
positions; the ASCII inputs considered make byte and char indices
agree.) -/
def strict_parse (content : List Char) : StrictResult :=
  match rfindDash content with
  | none => StrictResult.panicked
  | some dashPos =>
    let startPos := dashPos - 6
    let slice := content.drop startPos
    let vend := (slice.findIdx? (fun c => c == '-')).getD slice.length
    let vstr := slice.take vend
    let parts := ((splitOnDot vstr).take 3).filterMap parseU32Seg
    match parts with
    | [a, b, c] => StrictResult.parsed ⟨a, b, c⟩
    | _ => StrictResult.versionParseError

/-- Decidable equality for `Except`, so that closed statements about the
embedded fallible operations can be settled by `decide`. -/
instance {ε α : Type} [DecidableEq ε] [DecidableEq α] : DecidableEq (Except ε α)
  | .ok a, .ok b =>
    if h : a = b then .isTrue (congrArg Except.ok h)
    else .isFalse (fun hc => h (Except.ok.inj hc))
  | .ok _, .error _ => .isFalse (fun hc => Except.noConfusion hc)
  | .error _, .ok _ => .isFalse (fun hc => Except.noConfusion hc)
  | .error a, .error b =>
    if h : a = b then .isTrue (congrArg Except.error h)
    else .isFalse (fun hc => h (Except.error.inj hc))

end HdiffApply

namespace HdiffApply

/-- C1 (counterexample): the claim is false on the code.  For client
version 1.0.4 and candidates discovered in the order
[1.0.5, 1.0.6, 1.0.8, 1.0.7], `UpdateMgr::fix_update_sequence` resolves
the chain [1.0.5, 1.0.6] — not the claimed sorted-then-greedy chain
[1.0.5, 1.0.6, 1.0.7, 1.0.8] — because it never sorts the candidates.
Moreover the older `main.rs` sequencing, which does sort, is not greedy:
from client 1.0.4 with candidates [1.0.5, 1.0.9] it accepts 1.0.9 even
though 1.0.9 is not the direct successor of 1.0.5. -/
theorem fix_update_sequence_not_sorted_greedy :
    fix_update_sequence (v 1 0 4) [v 1 0 5, v 1 0 6, v 1 0 8, v 1 0 7] ≠
      Except.ok [v 1 0 5, v 1 0 6, v 1 0 7, v 1 0 8] ∧
    mainRunChain (v 1 0 4) [v 1 0 5, v 1 0 9] =
      Except.ok [v 1 0 5, v 1 0 9] := by
  constructor <;> decide

/-- C1 (amended): the current sequencer (`UpdateMgr::fix_update_sequence`)
does not sort: it walks the candidates in discovery order, skips leading
incompatible candidates, greedily accepts consecutive direct successors
and stops at the first break, so the resolved chain depends on discovery
order.  For client 1.0.4, discovery order [1.0.5, 1.0.6, 1.0.8, 1.0.7]
resolves to [1.0.5, 1.0.6], while the sorted order
[1.0.5, 1.0.6, 1.0.7, 1.0.8] resolves to the full chain.  The older
`main.rs` pipeline sorts first but then accepts every candidate from the
first direct successor of the client version to the end of the sorted
list without verifying consecutive steps. -/
theorem fix_update_sequence_discovery_order :
    fix_update_sequence (v 1 0 4) [v 1 0 5, v 1 0 6, v 1 0 8, v 1 0 7] =
      Except.ok [v 1 0 5, v 1 0 6] ∧
    fix_update_sequence (v 1 0 4) [v 1 0 5, v 1 0 6, v 1 0 7, v 1 0 8] =
      Except.ok [v 1 0 5, v 1 0 6, v 1 0 7, v 1 0 8] ∧
    mainRunChain (v 1 0 4) [v 1 0 5, v 1 0 6, v 1 0 8, v 1 0 7] =
      Except.ok [v 1 0 5, v 1 0 6, v 1 0 7, v 1 0 8] := by
  refine ⟨by decide, by decide, by decide⟩

/-- C3: in `HDiff::patch`, as long as the external patcher can be launched
for every entry (no launch failure), the batch completes with `Ok`: the
log contains exactly one "Failed to patch" line for each entry whose
patcher run failed (unsuccessful status with non-empty stderr), and the
attempted file removals are exactly, for each entry whose patcher run
exited successfully, its patch blob followed by its source file when the
source path differs from the target path — entries whose patcher run
failed contribute no removals. -/
theorem hdiff_patch_partial_failure (game : String)
    (batch : List (DiffEntry × ExecOutcome))
    (h : ∀ p ∈ batch, p.2 ≠ ExecOutcome.launchFailure) :
    hdiffPatch game batch =
      Except.ok
        (batch.filterMap (fun p =>
          match p.2 with
          | ExecOutcome.ran false (_ :: _) =>
            some ("Failed to patch: " ++ entrySource game p.1)
          | _ => none),
        (batch.filter (fun p =>
          match p.2 with
          | ExecOutcome.ran true _ => true
          | _ => false)).flatMap (fun p =>
          if entrySource game p.1 ≠ pathJoin game p.1.target_file_name then
            [pathJoin game p.1.patch_file_name, entrySource game p.1]
          else
            [pathJoin game p.1.patch_file_name])) := by
  induction batch with
  | nil => rfl
  | cons p rest ih =>
    obtain ⟨e, o⟩ := p
    have ho : o ≠ ExecOutcome.launchFailure := h (e, o) (List.mem_cons_self _ _)
    have ih' := ih (fun q hq => h q (List.mem_cons_of_mem _ hq))
    cases o with
    | launchFailure => exact absurd rfl ho
    | ran s stderr =>
      cases s with
      | false =>
        cases stderr with
        | nil =>
          simp only [hdiffPatch, hdiffPatchStep, patch_file, ih',
            List.filterMap_cons, List.filter_cons, List.flatMap_cons]
          simp
        | cons b bs =>
          simp only [hdiffPatch, hdiffPatchStep, patch_file, ih',
            List.filterMap_cons, List.filter_cons, List.flatMap_cons]
          simp
      | true =>
        simp only [hdiffPatch, hdiffPatchStep, patch_file, ih',
          List.filterMap_cons, List.filter_cons, List.flatMap_cons]
        by_cases hst : entrySource game e = pathJoin game e.target_file_name <;>
          simp [hst]

/-- C3 (witness): a concrete two-entry batch where the patcher fails for
entry X (unsuccessful status, non-empty stderr) and succeeds for entry Y:
the batch completes, X is logged, and only Y's patch blob and source file
are removed. -/
theorem hdiff_patch_partial_failure_witness :
    (∀ p ∈ [(({ source_file_name := "x", source_file_md5 := "", source_file_size := 0,
                 target_file_name := "x", target_file_md5 := "", target_file_size := 0,
                 patch_file_name := "x.hdiff", patch_file_md5 := "", patch_file_size := 0 }
               : DiffEntry), ExecOutcome.ran false [1]),
             (({ source_file_name := "y", source_file_md5 := "", source_file_size := 0,
                 target_file_name := "y2", target_file_md5 := "", target_file_size := 0,
                 patch_file_name := "y.hdiff", patch_file_md5 := "", patch_file_size := 0 }
               : DiffEntry), ExecOutcome.ran true [])],
        p.2 ≠ ExecOutcome.launchFailure) ∧
    hdiffPatch "g"
        [(({ source_file_name := "x", source_file_md5 := "", source_file_size := 0,
             target_file_name := "x", target_file_md5 := "", target_file_size := 0,
             patch_file_name := "x.hdiff", patch_file_md5 := "", patch_file_size := 0 }
           : DiffEntry), ExecOutcome.ran false [1]),
         (({ source_file_name := "y", source_file_md5 := "", source_file_size := 0,
             target_file_name := "y2", target_file_md5 := "", target_file_size := 0,
             patch_file_name := "y.hdiff", patch_file_md5 := "", patch_file_size := 0 }
           : DiffEntry), ExecOutcome.ran true [])] =
      Except.ok (["Failed to patch: g/x"], ["g/y.hdiff", "g/y"]) := by
  refine ⟨by decide, ?_⟩
  have := hdiff_patch_partial_failure "g"
    [(({ source_file_name := "x", source_file_md5 := "", source_file_size := 0,
         target_file_name := "x", target_file_md5 := "", target_file_size := 0,
         patch_file_name := "x.hdiff", patch_file_md5 := "", patch_file_size := 0 }
       : DiffEntry), ExecOutcome.ran false [1]),
     (({ source_file_name := "y", source_file_md5 := "", source_file_size := 0,
         target_file_name := "y2", target_file_md5 := "", target_file_size := 0,
         patch_file_name := "y.hdiff", patch_file_md5 := "", patch_file_size := 0 }
       : DiffEntry), ExecOutcome.ran true [])] (by decide)
  simpa [entrySource, pathJoin] using this

/-- C10: when the external patcher process runs but exits with an
unsuccessful status and empty stderr, `HPatchZ::patch_file` falls through
to the trailing `Ok(true)`: it reports success and attempts no file
removal at all. -/
theorem patch_file_empty_stderr_reports_success (s p t : String) :
    patch_file (ExecOutcome.ran false []) s p t =
      Except.ok { success := true, removed := [] } := rfl

/-- C2: `verify_version cur next` is true exactly when `next` is
`(cur.major, cur.minor, cur.patch + 1)`. -/
theorem verify_version_iff_exact_successor (cur next : BinaryVersion) :
    verify_version cur next = true ↔
      cur.major_version = next.major_version ∧
      cur.minor_version = next.minor_version ∧
      next.patch_version = cur.patch_version + 1 := by
  simp [verify_version, and_assoc]

/-- C4 (counterexample): the claim is false on the code.  A diff entry
with empty source identity (empty `source_file_name`, empty
`source_file_md5`) is not skipped: on a filesystem where its pre-image
path is absent, `verify_all` returns the open error for that path instead
of succeeding, so the verifier did attempt to open a pre-image for a
brand-new-file entry. -/
theorem verify_all_processes_empty_hash_entries :
    verify_all (fun _ => "") "g" []
        [{ source_file_name := "", source_file_size := 0, source_file_md5 := "" }] =
      Except.error (VerifyError.ioOpen "g/") ∧
    verify_all (fun _ => "") "g" []
        [{ source_file_name := "", source_file_size := 0, source_file_md5 := "" }] ≠
      Except.ok () := by
  constructor <;> decide

/-- C4 (amended): the verifier processes every diff entry, with no skip
for brand-new-file entries: for every entry — in particular one whose
source hash is empty — `verify_file` opens the pre-image path, so when
that path is absent from the filesystem it returns an open error rather
than succeeding. -/
theorem verify_file_always_opens_source (md5 : List Nat → String)
    (game : String) (fs : Fs) (entry : VerifierEntry)
    (h : fsLookup fs (pathJoin game entry.source_file_name) = none) :
    verify_file md5 game fs entry =
      Except.error (VerifyError.ioOpen (pathJoin game entry.source_file_name)) := by
  simp [verify_file, h]

/-- C4 (witness): the amended theorem applied to a concrete entry whose
source hash and source name are empty, over the empty filesystem. -/
theorem verify_file_always_opens_source_witness :
    fsLookup []
        (pathJoin "g"
          ({ source_file_name := "", source_file_size := 0, source_file_md5 := "" }
            : VerifierEntry).source_file_name) = none ∧
    verify_file (fun _ => "") "g" []
        { source_file_name := "", source_file_size := 0, source_file_md5 := "" } =
      Except.error
        (VerifyError.ioOpen
          (pathJoin "g"
            ({ source_file_name := "", source_file_size := 0, source_file_md5 := "" }
              : VerifierEntry).source_file_name)) :=
  ⟨by decide,
   verify_file_always_opens_source (fun _ => "") "g" []
     { source_file_name := "", source_file_size := 0, source_file_md5 := "" }
     (by decide)⟩

/-- C5: whenever the on-disk pre-image's byte length differs from the
entry's declared `source_file_size`, `verify_file` fails with the
size-mismatch error carrying the expected size, the actual size and the
file name — and since the statement holds for every hash function `md5`,
the result does not depend on the content's hash: the content is never
hashed before the size check passes. -/
theorem verify_file_size_mismatch_before_hash (md5 : List Nat → String)
    (game : String) (fs : Fs) (entry : VerifierEntry) (content : List Nat)
    (hfind : fsLookup fs (pathJoin game entry.source_file_name) = some content)
    (hsize : content.length ≠ entry.source_file_size) :
    verify_file md5 game fs entry =
      Except.error
        (VerifyError.fileSizeMismatch entry.source_file_size content.length
          (pathJoin game entry.source_file_name)) := by
  simp [verify_file, hfind, hsize]

/-- C5 (witness): a concrete entry declaring `source_size = 100` against
an on-disk file of 99 bytes fails with the size-mismatch error
(expected 100, got 99) for every hash oracle instantiation. -/
theorem verify_file_size_mismatch_before_hash_witness :
    fsLookup [("g/a.bin", List.replicate 99 0)]
        (pathJoin "g"
          ({ source_file_name := "a.bin", source_file_size := 100,
             source_file_md5 := "d41d8cd9" } : VerifierEntry).source_file_name) =
      some (List.replicate 99 0) ∧
    (List.replicate 99 (0 : Nat)).length ≠
      ({ source_file_name := "a.bin", source_file_size := 100,
         source_file_md5 := "d41d8cd9" } : VerifierEntry).source_file_size ∧
    verify_file (fun _ => "ffff") "g" [("g/a.bin", List.replicate 99 0)]
        { source_file_name := "a.bin", source_file_size := 100,
          source_file_md5 := "d41d8cd9" } =
      Except.error (VerifyError.fileSizeMismatch 100 99 "g/a.bin") :=
  ⟨by decide, by decide,
   by
    have := verify_file_size_mismatch_before_hash (fun _ => "ffff") "g"
      [("g/a.bin", List.replicate 99 0)]
      { source_file_name := "a.bin", source_file_size := 100,
        source_file_md5 := "d41d8cd9" }
      (List.replicate 99 0) (by decide) (by decide)
    simpa [pathJoin] using this⟩

/-- C6: patch-blob materialization from a chunk file returns, on success,
exactly the `size` bytes starting at `offset`, and whenever the chunk
holds fewer bytes than the descriptor declares (and the request is not
empty) it fails with the short-read error instead of producing a
truncated blob. -/
theorem create_hdiff_file_exact_or_fails (chunk : List Nat) (offset size : Nat) :
    (∀ b, create_hdiff_file chunk offset size = Except.ok b →
      b = (chunk.drop offset).take size ∧ b.length = size) ∧
    (chunk.length < offset + size → 0 < size →
      create_hdiff_file chunk offset size =
        Except.error "failed to fill whole buffer") := by
  constructor
  · intro b hb
    unfold create_hdiff_file read_exact at hb
    by_cases h : size ≤ chunk.length - offset
    · simp only [if_pos h] at hb
      refine ⟨(Except.ok.inj hb).symm, ?_⟩
      rw [← Except.ok.inj hb]
      simp only [List.length_take, List.length_drop]
      omega
    · simp [if_neg h] at hb
  · intro h1 h2
    have h : ¬ size ≤ chunk.length - offset := by omega
    unfold create_hdiff_file read_exact
    simp [if_neg h]

/-- C6 (witness): a chunk file of 10 bytes with a descriptor requesting
offset 7 and size 10 (the claim's `offset = N - 3, size = 10` shape)
makes extraction fail with the short-read error. -/
theorem create_hdiff_file_exact_or_fails_witness :
    (List.replicate 10 (7 : Nat)).length < 7 + 10 ∧ 0 < 10 ∧
    create_hdiff_file (List.replicate 10 7) 7 10 =
      Except.error "failed to fill whole buffer" :=
  ⟨by decide, by decide,
   (create_hdiff_file_exact_or_fails (List.replicate 10 7) 7 10).2
     (by decide) (by decide)⟩

/-- C7 (counterexample): the claim is false on the code.  A file `foo.txt`
sitting directly under the install root, tracked by no manifest asset, is
required to be deleted by the claim ("every file under the install
root"), but `handle_delete_files` walks only the `StarRail_Data`
subdirectory and deletes nothing here, while the spec-modelled
reconciliation over the whole install root deletes it. -/
theorem handle_delete_files_skips_root_files :
    handle_delete_files [] [["foo.txt"]] = [] ∧
    handle_delete_files_claim [] [["foo.txt"]] = [["foo.txt"]] := by
  constructor <;> decide

/-- C7 (amended): with no legacy deletion list, `handle_delete_files`
deletes exactly the files found by recursively listing the
`StarRail_Data` subtree of the install root (skipping directories named
`Persistent`) whose path relative to the install root is not in the
manifest's asset-name set; in particular a file whose relative path is in
the asset set is never deleted, and a file outside `StarRail_Data` is
never deleted. -/
theorem handle_delete_files_characterization (assets : List String)
    (files : List (List String)) (p : List String) :
    p ∈ handle_delete_files assets files ↔
      p ∈ files ∧ p.head? = some "StarRail_Data" ∧
      (∀ c ∈ (p.drop 1).dropLast, c ≠ "Persistent") ∧
      p ∉ assets.map splitPath := by
  simp only [handle_delete_files, walk_dir_excluding, List.mem_filter,
    List.all_eq_true, List.mem_map, Bool.and_eq_true, Bool.not_eq_true',
    List.contains_eq_any_beq, List.any_eq_false, beq_iff_eq, bne_iff_ne,
    ne_eq, Option.some.injEq, not_exists, not_and]
  aesop

/-- C8: given a present, readable deletion list, `DeleteFiles::execute`
never fails: it returns `Ok` for every combination of per-file outcomes,
removes exactly the (trimmed, non-empty) listed paths whose deletion the
filesystem allows, and logs one line for each listed path whose deletion
fails — later entries are processed regardless of earlier failures. -/
theorem deletefiles_execute_logs_and_continues (game : String)
    (lines : List String) (deleteOk : String → Bool) :
    deletefiles_execute game lines deleteOk =
      Except.ok
        ((((lines.map String.trim).filter (fun t => t != "")).map
            (pathJoin game)).filter deleteOk,
         ((((lines.map String.trim).filter (fun t => t != "")).map
            (pathJoin game)).filter (fun q => !deleteOk q)).map
          (fun q => "Failed to remove " ++ q)) := by
  unfold deletefiles_execute
  congr 1
  induction lines with
  | nil => rfl
  | cons l rest ih =>
    simp only [deletefiles_lines, List.map_cons, List.filter_cons]
    by_cases h : l.trim = ""
    · simp [h, ih]
    · by_cases hd : deleteOk (pathJoin game l.trim)
      · simp [h, hd, ih]
      · simp [h, hd, ih]

/-- C9 (counterexample): the claim is false on the code.  For the content
`"hello"` — which contains no `MAJOR.MINOR.PATCH` pattern — the legacy
decoder duly returns the zero version, but the strict decoder does not
return a hard parse error: `content.rfind('-').unwrap()` panics because
the content has no `'-'` at all. -/
theorem strict_parse_panics_without_dash :
    findVersionMatch (String.toList "hello") = none ∧
    binary_version_parse (String.toList "hello") = v 0 0 0 ∧
    strict_parse (String.toList "hello") = StrictResult.panicked ∧
    StrictResult.panicked ≠ StrictResult.versionParseError := by
  refine ⟨by decide, by decide, by decide, by decide⟩

/-- C9 (amended): the legacy decoder extracts the first
`MAJOR.MINOR.PATCH` pattern and returns the zero version — never an
error — on any content with no such pattern; the strict decoder returns a
hard parse error when the content contains a `'-'` but no parseable
version before it, and panics (crashes on an `unwrap` of `None`) instead
of returning an error when the content contains no `'-'`. -/
theorem binary_version_parse_policies :
    (∀ content, findVersionMatch content = none →
      binary_version_parse content = v 0 0 0) ∧
    (∀ content, rfindDash content = none →
      strict_parse content = StrictResult.panicked) ∧
    binary_version_parse (String.toList "v1.2.3 and 4.5.6") = v 1 2 3 ∧
    strict_parse (String.toList "hello-world") = StrictResult.versionParseError := by
  refine ⟨?_, ?_, by decide, by decide⟩
  · intro content h
    simp [binary_version_parse, h, v]
  · intro content h
    simp [strict_parse, h]

/-- C9 (witness): the amended theorem applied to the concrete patternless
content `"no version here"`: the legacy decoder yields the zero version
and the strict decoder panics. -/
theorem binary_version_parse_policies_witness :
    (findVersionMatch (String.toList "no version here") = none ∧
     binary_version_parse (String.toList "no version here") = v 0 0 0) ∧
    (rfindDash (String.toList "no version here") = none ∧
     strict_parse (String.toList "no version here") = StrictResult.panicked) :=
  ⟨⟨by decide, binary_version_parse_policies.1 _ (by decide)⟩,
   ⟨by decide, binary_version_parse_policies.2.1 _ (by decide)⟩⟩

end HdiffApply
